import Mathlib

/-!
Verification of the snow-cover-area (SCA) pipeline of the
EarthObservationcollege notebooks (`31_data_processing.py`,
`32_validation.py`).

Pixel band values are modelled as rationals, the SCL scene-classification
band as an integer.  Rasters restricted to the catchment are modelled as
lists of per-pixel band records; the openEO operator chain
(NDSI band algebra, threshold classification, cloud masking,
polygon masking, spatial aggregation, cloud filtering of the
assembled time series, station matching and validation) is embedded as
plain functions on those records.
-/

/-- One pixel of the loaded Sentinel-2 cube: band B03 (green), band B11
(short-wave infrared) and the SCL scene-classification band. -/
structure PixelData where
  green : ℚ
  swir : ℚ
  scl : ℤ
deriving DecidableEq, Repr

/-- `ndsi = (green - swir) / (green + swir)`, the normalized-difference
snow index of `31_data_processing.py`. -/
def ndsi (green swir : ℚ) : ℚ := (green - swir) / (green + swir)

/-- The pixel-wise threshold classifier `(ndsi > 0.4) * 1.0` of
`31_data_processing.py`: value strictly above the cutoff 0.4 gives
class 1 (snow), otherwise class 0 (no snow). -/
def classify (v : ℚ) : ℚ := if v > 2/5 then 1 else 0

/-- `snowmap = (ndsi > 0.4) * 1.0`: the binary snow map. -/
def snowmap (p : PixelData) : ℚ := classify (ndsi p.green p.swir)

/-- `cloud_mask = ((scl == 8) | (scl == 9) | (scl == 3)) * 1.0` of
`31_data_processing.py`. -/
def cloud_mask (scl : ℤ) : ℚ := if scl = 8 ∨ scl = 9 ∨ scl = 3 then 1 else 0

/-- The openEO `mask` process as used with an explicit replacement value:
where the mask is truthy (non-zero) the replacement is substituted,
elsewhere the base value is kept. -/
def maskWith (base m replacement : ℚ) : ℚ := if m ≠ 0 then replacement else base

/-- `snowmap_cloudfree = snowmap.mask(cloud_mask, replacement=2)`:
the composited snow map, 0 = no snow, 1 = snow, 2 = cloud. -/
def snowmap_cloudfree (p : PixelData) : ℚ :=
  maskWith (snowmap p) (cloud_mask p.scl) 2

/-- `mask_polygon`: values of cells outside the supplied geometry are set
to NA (`none`); cells inside keep their value. -/
def mask_polygon {α : Type} (inside : α → Bool) (raster : α → ℚ) (p : α) : Option ℚ :=
  if inside p then some (raster p) else none

/-- `(snowmap_cloudfree > -1) * 1.0`: the indicator counted for the total
number of catchment pixels. -/
def n_catchment (p : PixelData) : ℚ := if snowmap_cloudfree p > -1 then 1 else 0

/-- The cloud-pixel indicator (the cloud mask itself). -/
def n_cloud (p : PixelData) : ℚ := cloud_mask p.scl

/-- `(snowmap_cloudfree == 1) * 1.0`: the snow-pixel indicator. -/
def n_snow (p : PixelData) : ℚ := if snowmap_cloudfree p = 1 then 1 else 0

/-- The implicit no-snow indicator: cells of the composited snow map with
value 0. -/
def n_nosnow (p : PixelData) : ℚ := if snowmap_cloudfree p = 0 then 1 else 0

/-- The sum-reducing `aggregate_spatial` call restricted to one
region and one timestep: sum a pixel-wise band over the cells lying in
the region geometry. -/
def aggregate_spatial_sum (region : PixelData → Bool) (f : PixelData → ℚ)
    (pixels : List PixelData) : ℚ :=
  ((pixels.filter region).map f).sum

/-- Modelled from the spec: the result shape of the openEO backend process
`aggregate_spatial` (its implementation is delegated to the remote
backend and is not part of the repository sources): on an empty
intersection of region and raster it returns an explicit no-data result
(`none`), never a count; otherwise the reduced value. -/
def aggregate_spatial (region : PixelData → Bool) (f : PixelData → ℚ)
    (pixels : List PixelData) : Option ℚ :=
  match pixels.filter region with
  | [] => none
  | l => some ((l.map f).sum)

/-- One row of the assembled catchment time series of
`31_data_processing.py`: per-timestep pixel counts for the catchment. -/
structure TimeStep where
  time : ℕ
  n_catchment_vals : ℚ
  n_cloud_vals : ℚ
  n_snow_vals : ℚ
deriving DecidableEq, Repr

/-- `perc_cloud = n_cloud_vals / n_catchment_vals * 100`. -/
def perc_cloud (r : TimeStep) : ℚ := r.n_cloud_vals / r.n_catchment_vals * 100

/-- `df_filtered = df.loc[df["perc_cloud"] < 25]`: keep exactly the
timesteps whose cloud percentage is strictly below 25. -/
def df_filtered (df : List TimeStep) : List TimeStep :=
  df.filter (fun r => decide (perc_cloud r < 25))

/-- A row of the pre-processed snow-station table of `32_validation.py`:
the `id` column holds the date string, `Name` the station name. -/
structure StationRecord where
  id : String
  name : String
  snow_presence : ℚ
deriving DecidableEq, Repr

/-- The station matching of `32_validation.py`: select one station by name
(`.query("Name == ...")`) and keep only its records whose date occurs in
the SCA time series (`.id.isin(dates)`). -/
def station_subset (stations : List StationRecord) (stationName : String)
    (dates : List String) : List StationRecord :=
  (stations.filter (fun r => r.name == stationName)).filter
    (fun r => dates.contains r.id)

/-- The 2×2 confusion matrix of the validation step. -/
structure ConfMatrix where
  truePos : ℕ
  falsePos : ℕ
  trueNeg : ℕ
  falseNeg : ℕ
deriving DecidableEq, Repr

/-- Modelled from the spec: `validation_metrics` is imported from
`_32_cubes_utilities.py`, which is not among the repository sources.
Following the spec contract: pair the ground-truth series (missing
readings are `none`) with the derived binary series over the common
timestamps, count the 2×2 confusion matrix over the pairs whose ground
truth is present, and report accuracy = correct / total, explicitly
undefined (`none`) when no ground truth is present at all. -/
def validation_metrics (pairs : List (Option Bool × Bool)) : Option ℚ × ConfMatrix :=
  let valid := pairs.filterMap (fun pr => pr.1.map (fun t => (t, pr.2)))
  let tp := valid.countP (fun q => q.1 && q.2)
  let tn := valid.countP (fun q => !q.1 && !q.2)
  let fp := valid.countP (fun q => !q.1 && q.2)
  let fnn := valid.countP (fun q => q.1 && !q.2)
  (if valid.length = 0 then none
   else some (((tp : ℚ) + tn) / valid.length),
   ⟨tp, fp, tn, fnn⟩)

/-- A concrete ten-timestep series over a 100-pixel catchment; three of
its timesteps (cloud counts 30, 40 and 26) exceed the 25 % cloud
threshold. -/
def demo_series : List TimeStep :=
  [⟨0, 100, 10, 50⟩, ⟨1, 100, 30, 40⟩, ⟨2, 100, 5, 60⟩, ⟨3, 100, 40, 20⟩,
   ⟨4, 100, 0, 80⟩, ⟨5, 100, 20, 30⟩, ⟨6, 100, 24, 10⟩, ⟨7, 100, 26, 5⟩,
   ⟨8, 100, 12, 55⟩, ⟨9, 100, 3, 70⟩]

/-- Pointwise closed partition: each catchment cell is counted exactly
once among snow, cloud and no-snow. -/
lemma n_partition (p : PixelData) :
    n_catchment p = n_snow p + n_cloud p + n_nosnow p := by
  unfold n_catchment n_snow n_cloud n_nosnow snowmap_cloudfree maskWith cloud_mask snowmap classify
  by_cases h : p.scl = 8 ∨ p.scl = 9 ∨ p.scl = 3
  · norm_num [h]
  · by_cases h2 : ndsi p.green p.swir > 2/5 <;> norm_num [h, h2]

/-- Sums of pointwise-added bands split. -/
lemma aggregate_add (region : PixelData → Bool) (f g : PixelData → ℚ)
    (pixels : List PixelData) :
    aggregate_spatial_sum region (fun p => f p + g p) pixels =
      aggregate_spatial_sum region f pixels + aggregate_spatial_sum region g pixels := by
  unfold aggregate_spatial_sum
  induction pixels with
  | nil => simp
  | cons a l ih =>
    by_cases h : region a
    · simp [List.filter_cons, h, ih]
      ring
    · simp [List.filter_cons, h, ih]

/-- Claim C1: for every region and timestep, the aggregated total count
(cells of the composited snow map with value greater than -1) equals the
sum of the snow count, the cloud count and the implicit no-snow count,
all restricted to cells inside the geometry. -/
theorem C1_closed_partition (region : PixelData → Bool) (pixels : List PixelData) :
    aggregate_spatial_sum region n_catchment pixels =
      aggregate_spatial_sum region n_snow pixels
        + aggregate_spatial_sum region n_cloud pixels
        + aggregate_spatial_sum region n_nosnow pixels := by
  have h1 : aggregate_spatial_sum region n_catchment pixels =
      aggregate_spatial_sum region (fun p => n_snow p + n_cloud p + n_nosnow p) pixels := by
    unfold aggregate_spatial_sum
    congr 1
    exact List.map_congr_left fun p _ => n_partition p
  rw [h1, aggregate_add region (fun p => n_snow p + n_cloud p) n_nosnow,
    aggregate_add region n_snow n_cloud]

/-- Claim C2: wherever the cloud mask is set (SCL value 3, 8 or 9), the
composited snow map holds the cloud class 2, whatever class the threshold
classifier assigned to that pixel. -/
theorem C2_cloud_precedence (p : PixelData)
    (h : p.scl = 3 ∨ p.scl = 8 ∨ p.scl = 9) :
    snowmap_cloudfree p = 2 := by
  unfold snowmap_cloudfree maskWith cloud_mask
  rcases h with h | h | h <;> simp [h]

/-- Witness for C2: a pixel the classifier marks no-snow (NDSI = -1)
still composites to the cloud class 2 when its SCL value is 8. -/
theorem C2_cloud_precedence_witness :
    snowmap_cloudfree ⟨0, 1, 8⟩ = 2 ∧ snowmap ⟨0, 1, 8⟩ = 0 :=
  ⟨C2_cloud_precedence ⟨0, 1, 8⟩ (Or.inr (Or.inl rfl)), by
    norm_num [snowmap, classify, ndsi]⟩

/-- Claim C4: for non-negative band values with non-zero sum, the
normalized-difference snow index lies in the interval [-1, 1]. -/
theorem C4_ndsi_bounded (green swir : ℚ) (hg : 0 ≤ green) (hs : 0 ≤ swir)
    (hsum : green + swir ≠ 0) :
    -1 ≤ ndsi green swir ∧ ndsi green swir ≤ 1 := by
  have hpos : 0 < green + swir := lt_of_le_of_ne (by linarith) (Ne.symm hsum)
  unfold ndsi
  constructor
  · rw [le_div_iff₀ hpos]
    linarith
  · rw [div_le_one hpos]
    linarith

/-- Witness for C4: the bound evaluated at the band pair (3, 1). -/
theorem C4_ndsi_bounded_witness :
    (0:ℚ) ≤ 3 ∧ (0:ℚ) ≤ 1 ∧ (3:ℚ) + 1 ≠ 0 ∧
      (-1 ≤ ndsi 3 1 ∧ ndsi 3 1 ≤ 1) :=
  ⟨by norm_num, by norm_num, by norm_num,
    C4_ndsi_bounded 3 1 (by norm_num) (by norm_num) (by norm_num)⟩

/-- Claim C9: the threshold classifier is idempotent — classifying an
already-classified value with the same cutoff leaves it unchanged. -/
theorem C9_classify_idempotent (v : ℚ) : classify (classify v) = classify v := by
  unfold classify
  by_cases h : v > 2/5 <;> simp [h] <;> norm_num

/-- Claim C10: the threshold boundary is exclusive — a pixel whose NDSI
equals the cutoff 0.4 exactly receives class 0 (no snow), and class 1
(snow) is assigned exactly to values strictly greater than 0.4. -/
theorem C10_boundary_exclusive :
    classify (2/5) = 0 ∧ ∀ v : ℚ, (classify v = 1 ↔ 2/5 < v) := by
  constructor
  · norm_num [classify]
  · intro v
    unfold classify
    by_cases h : v > 2/5 <;> simp [h]

/-- Claim C3: the cloud filter keeps exactly the timesteps whose cloud
percentage is strictly below 25, drops whole rows only (the retained
rows form a sublist of the original series, each row unchanged), and in
particular a ten-timestep series of which three are at or above the
threshold retains exactly seven. -/
theorem C3_cloud_filter (df : List TimeStep) :
    List.Sublist (df_filtered df) df
    ∧ (∀ r, r ∈ df_filtered df ↔ r ∈ df ∧ perc_cloud r < 25)
    ∧ (df.length = 10 →
        df.countP (fun r => decide (25 ≤ perc_cloud r)) = 3 →
        (df_filtered df).length = 7) := by
  refine ⟨List.filter_sublist df, fun r => ?_, fun hlen hover => ?_⟩
  · rw [df_filtered, List.mem_filter, decide_eq_true_eq]
  · have hsplit := List.length_eq_countP_add_countP
      (fun r => decide (25 ≤ perc_cloud r)) df
    have hcongr : df.countP (fun r => decide ¬(decide (25 ≤ perc_cloud r) = true))
        = df.countP (fun r => decide (perc_cloud r < 25)) := by
      apply List.countP_congr
      intro r _
      simp [not_le]
    have hflt : (df_filtered df).length
        = df.countP (fun r => decide (perc_cloud r < 25)) := by
      rw [df_filtered, ← List.countP_eq_length_filter]
    omega

/-- Witness for C3: the ten-timestep demonstration series with three
cloudy timesteps retains exactly seven after filtering. -/
theorem C3_cloud_filter_witness :
    demo_series.length = 10 ∧ (df_filtered demo_series).length = 7 :=
  ⟨rfl, (C3_cloud_filter demo_series).2.2 rfl (by
    norm_num [demo_series, perc_cloud, List.countP_cons])⟩

/-- Claim C5: the station matching keeps exactly the records of the
requested station whose date occurs in the SCA time series — every
station record whose date is absent from the SCA dates is dropped. -/
theorem C5_station_inner_join (stations : List StationRecord)
    (stationName : String) (dates : List String) (r : StationRecord) :
    r ∈ station_subset stations stationName dates ↔
      (r ∈ stations ∧ r.name = stationName ∧ r.id ∈ dates) := by
  simp only [station_subset, List.mem_filter, List.contains, List.elem_iff,
    beq_iff_eq, decide_eq_true_eq]
  tauto

/-- Claim C6: when the ground truth is missing for every common
timestep, the validation reports an explicitly undefined accuracy
(`none`), not the value 0. -/
theorem C6_all_nan_undefined (pairs : List (Option Bool × Bool))
    (h : ∀ pr ∈ pairs, pr.1 = none) :
    (validation_metrics pairs).1 = none
      ∧ (validation_metrics pairs).1 ≠ some 0 := by
  have hempty : pairs.filterMap (fun pr => pr.1.map (fun t => (t, pr.2))) = [] := by
    rw [List.filterMap_eq_nil_iff]
    intro pr hpr
    rw [h pr hpr]
    rfl
  constructor <;> simp [validation_metrics, hempty]

/-- Witness for C6: a two-timestep series whose ground truth is missing
throughout yields the undefined accuracy. -/
theorem C6_all_nan_undefined_witness :
    (validation_metrics [(none, true), (none, false)]).1 = none ∧
      (validation_metrics [(none, true), (none, false)]).1 ≠ some 0 :=
  C6_all_nan_undefined [(none, true), (none, false)] (by decide)

/-- Claim C7: on an empty intersection of region geometry and raster,
spatial aggregation returns the explicit no-data result `none`, which is
distinct from a zero count. -/
theorem C7_empty_domain_nodata (region : PixelData → Bool)
    (f : PixelData → ℚ) (pixels : List PixelData)
    (h : pixels.filter region = []) :
    aggregate_spatial region f pixels = none
      ∧ aggregate_spatial region f pixels ≠ some 0 := by
  constructor <;> simp [aggregate_spatial, h]

/-- Witness for C7: aggregating the snow band of a one-pixel raster over
a region containing no pixel yields the no-data result. -/
theorem C7_empty_domain_nodata_witness :
    aggregate_spatial (fun _ => false) n_snow [⟨1, 0, 0⟩] = none ∧
      aggregate_spatial (fun _ => false) n_snow [⟨1, 0, 0⟩] ≠ some 0 :=
  C7_empty_domain_nodata (fun _ => false) n_snow [⟨1, 0, 0⟩] rfl

/-- Claim C8: after polygon masking, every cell outside the region
geometry holds the explicit outside sentinel `none`, which differs from
the cloud/unknown class `some 2`. -/
theorem C8_outside_sentinel {α : Type} (inside : α → Bool)
    (raster : α → ℚ) (p : α) (h : inside p = false) :
    mask_polygon inside raster p = none
      ∧ mask_polygon inside raster p ≠ some 2 := by
  constructor <;> simp [mask_polygon, h]

/-- Witness for C8: a cell outside the geometry of a constant raster is
mapped to the outside sentinel. -/
theorem C8_outside_sentinel_witness :
    mask_polygon (fun _ : ℕ => false) (fun _ => 1) 0 = none ∧
      mask_polygon (fun _ : ℕ => false) (fun _ => 1) 0 ≠ some 2 :=
  C8_outside_sentinel (fun _ : ℕ => false) (fun _ => 1) 0 rfl
